import Mathlib

/-!
Verification of the cipherforge library (password generation and password
strength scoring) against a shallow embedding of its JavaScript source.

Embedding conventions:

* JS strings are Lean `String`s, one `Char` per code unit (all inputs of
  interest are in the Basic Multilingual Plane, where `s.length` in JS and
  Lean agree).
* The numeric scores are embedded as `ℚ`.  The scoring arithmetic consists
  of small integer sums, one exact comparison against the threshold, and a
  single division `(length - 8) / 12 * 50`; the properties stated below
  compare the code's formulas with the specification's formulas, which are
  syntactically identical expressions, so exact rational arithmetic is a
  faithful model.
* The process-wide random source (`Math.random`) is embedded as an explicit
  byte stream `ρ : ℕ → Fin 256`; the i-th iteration of the generator loop
  consumes bytes `ρ (4*i) … ρ (4*i+3)`, exactly as each `RandInt` call draws
  four fresh bytes.
* JS regular expression tests over a whole string (`/re/.test(s)`) become
  `List.any` over the string's characters for single-character classes; the
  `split(/\W+/)` tokenizer and the `split(/\r?\n/)` line splitter are
  implemented character-by-character with JS semantics (maximal separator
  runs, empty boundary tokens preserved).
* The repository carries several revisions of the same module.  The scorer
  (`CipherForge`) is embedded from src/unnamed/part_001 (the reference
  scoring scheme: unweighted additive total, threshold 75); the generator
  (`CipherCraft`) is embedded from src/index.js lines 3–110, whose
  `BasicPassword` calls the existing `RandInt` method (the part_001 copy
  refers to a nonexistent `getRandomInt`).  Divergences between revisions
  are noted on the affected definitions.
* Fallible behavior (a JS `TypeError` from calling an undefined method) is
  embedded with `Except`; the dictionary-file read outcome is passed to
  `loadDictionary` explicitly as an `Except` value.
-/

namespace CipherCraft

/-- Character set `this.charsets.lowercase` (src/index.js line 7). -/
def lowercaseChars : String := "abcdefghijklmnopqrstuvwxyz"

/-- Character set `this.charsets.uppercase` (src/index.js line 8). -/
def uppercaseChars : String := "ABCDEFGHIJKLMNOPQRSTUVWXYZ"

/-- Character set `this.charsets.numeric` (src/index.js line 9). -/
def numericChars : String := "0123456789"

/-- Character set `this.charsets.symbols` (src/index.js line 10). -/
def symbolChars : String := "!@#$%^&*()_+-=[]\x7b\x7d|;:,.<>?"

/-- Embeds `_bytesToNumber` (src/index.js lines 103–109): big-endian packing
of a byte array via `result = (result << 8) | bytes[i]` on 32-bit integers,
read back as unsigned by `>>> 0`.  For bytes below 256 each step keeps the
low 32 bits of `result * 256 + b`, so the whole loop is a fold with a
`mod 2^32` at every step. -/
def bytesToNumber (bytes : List (Fin 256)) : ℕ :=
  bytes.foldl (fun result b => (result * 256 + b.val) % 2 ^ 32) 0

/-- Embeds `_getRandomBytes` (src/index.js lines 92–95): draws `len` fresh
bytes from the random source, modelled as reading `len` successive positions
of the byte stream `ρ` starting at `pos`. -/
def getRandomBytes (ρ : ℕ → Fin 256) (pos len : ℕ) : List (Fin 256) :=
  (List.range len).map (fun j => ρ (pos + j))

/-- Embeds `RandInt` (src/index.js lines 80–84): packs 4 random bytes into an
unsigned 32-bit value and reduces it modulo `max`.  In JS, `value % 0` is
`NaN`; the `max = 0` case is therefore embedded as `none`. -/
def RandInt (ρ : ℕ → Fin 256) (pos : ℕ) (max : ℕ) : Option ℕ :=
  let randomValue := bytesToNumber (getRandomBytes ρ pos 4)
  if max = 0 then none else some (randomValue % max)

/-- JS string indexing as used by `password += charset[randomIndex]`
(src/index.js line 57): an in-range index yields the one-character string,
while an out-of-range or `NaN` index yields `undefined`, which `+=`
stringifies to the nine characters `"undefined"`. -/
def jsCharAt (s : String) (idx : Option ℕ) : String :=
  match idx with
  | none => "undefined"
  | some i =>
    if h : i < s.data.length then String.mk [s.data.get ⟨i, h⟩] else "undefined"

/-- Embeds `BasicPassword` (src/index.js lines 53–60): a loop
`for (i = 0; i < length; i++)` appending `charset[this.RandInt(charset.length)]`.
A negative `length` runs zero iterations.  The i-th iteration's `RandInt`
call consumes the four bytes at positions `4*i …`.  The source performs no
argument validation whatsoever. -/
def BasicPassword (ρ : ℕ → Fin 256) (charset : String) (len : ℤ) : String :=
  (List.range len.toNat).foldl
    (fun password i =>
      password ++ jsCharAt charset (RandInt ρ (4 * i) charset.data.length)) ""

/-- The `CipherCraft` class body (src/index.js lines 3–110) defines exactly
the methods `constructor`, `CustomPassword`, `BasicPassword`, `Key`,
`RandInt`, `_getRandomBytes`, `_bytesToNumber`.  No `generatePassword`
method is defined anywhere in the class (or elsewhere in the module), so the
property lookup `this.generatePassword` yields `undefined`:
modelled as `none`. -/
def generatePasswordMethod : Option (String → ℤ → String) := none

/-- The JS error raised when `this.generatePassword(...)` is invoked while
`this.generatePassword` is `undefined`. -/
def typeErrorGeneratePassword : String :=
  "TypeError: this.generatePassword is not a function"

/-- The options object of `CustomPassword` after JS destructuring-with-defaults
(src/index.js lines 27–34); every caller-supplied object resolves to one such
record. -/
structure PasswordOptions where
  length : ℤ
  useLowercase : Bool
  useUppercase : Bool
  useNumbers : Bool
  useSymbols : Bool
  customCharset : String

/-- Embeds `CustomPassword` (src/index.js lines 26–44): concatenates the
requested predefined classes onto `customCharset`, then calls
`this.generatePassword(charset, length)` — a method that does not exist, so
the call throws a `TypeError` before producing any string. -/
def CustomPassword (opts : PasswordOptions) : Except String String :=
  let charset := opts.customCharset
    ++ (if opts.useLowercase then lowercaseChars else "")
    ++ (if opts.useUppercase then uppercaseChars else "")
    ++ (if opts.useNumbers then numericChars else "")
    ++ (if opts.useSymbols then symbolChars else "")
  match generatePasswordMethod with
  | none => Except.error typeErrorGeneratePassword
  | some g => Except.ok (g charset opts.length)

/-- Embeds `Key` (src/index.js lines 68–72): fixed hexadecimal charset, then
calls the nonexistent `this.generatePassword`, throwing a `TypeError`. -/
def Key (len : ℤ) : Except String String :=
  let charset := "abcdef0123456789"
  match generatePasswordMethod with
  | none => Except.error typeErrorGeneratePassword
  | some g => Except.ok (g charset len)

end CipherCraft

namespace CipherForge

/-- A JS word character for the non-unicode regexes `\w` / `\W`:
`[A-Za-z0-9_]`. -/
def isWordChar (c : Char) : Bool := c.isAlpha || c.isDigit || c == '_'

/-- Worker for `String.prototype.split(/\W+/)`.  The mode flag is `false`
while inside a (possibly empty) token whose characters are accumulated in
reverse in `acc`, and `true` while skipping a maximal run of non-word
separator characters.  JS split keeps the empty tokens that arise at the
ends of the string. -/
def splitGo : List Char → Bool → List Char → List String
  | [], false, acc => [String.mk acc.reverse]
  | [], true, _ => [String.mk []]
  | c :: cs, false, acc =>
    if isWordChar c then splitGo cs false (c :: acc)
    else String.mk acc.reverse :: splitGo cs true []
  | c :: cs, true, _ =>
    if isWordChar c then splitGo cs false [c] else splitGo cs true []

/-- Embeds `password.split(/\W+/)` (src/unnamed/part_001 line 230). -/
def jsSplitNonWord (s : String) : List String := splitGo s.data false []

/-- Embeds `String.prototype.toLowerCase` (src/unnamed/part_001 line 228)
for the ASCII range, via `Char.toLower`. -/
def jsToLower (s : String) : String := String.mk (s.data.map Char.toLower)

/-- ASCII whitespace recognized by `String.prototype.trim`: space, tab,
line feed, carriage return, vertical tab, form feed. -/
def jsIsSpace (c : Char) : Bool :=
  c == ' ' || c == '\t' || c == '\n' || c == '\r' || c.toNat == 11 || c.toNat == 12

/-- Embeds `word.trim()` (src/unnamed/part_001 line 129). -/
def jsTrim (s : String) : String :=
  String.mk (((s.data.dropWhile jsIsSpace).reverse.dropWhile jsIsSpace).reverse)

/-- Strips the single optional carriage return that `split(/\r?\n/)` absorbs
before each line feed.  The argument is the accumulated line in reverse, so
a trailing `\r` of the line is its head. -/
def dropTrailingCr : List Char → List Char
  | '\r' :: rest => rest
  | l => l

/-- Worker for `data.split(/\r?\n/)`: cut at every line feed, absorbing one
carriage return directly before it; the final piece keeps any bare `\r`. -/
def splitLinesGo : List Char → List Char → List String
  | [], acc => [String.mk acc.reverse]
  | c :: cs, acc =>
    if c = '\n' then String.mk (dropTrailingCr acc).reverse :: splitLinesGo cs []
    else splitLinesGo cs (c :: acc)

/-- Embeds `data.split(/\r?\n/)` (src/unnamed/part_001 line 129). -/
def splitLines (s : String) : List String := splitLinesGo s.data []

/-- Embeds `loadDictionary` (src/unnamed/part_001 lines 125–135).  The
outcome of `fs.readFileSync` is passed in explicitly: on success the data is
split into lines and blank lines are dropped (`word.trim() !== ''`; kept
words are not themselves trimmed or lowercased); on any read error the
method catches, logs, and returns the empty word list. -/
def loadDictionary (readResult : Except String String) : List String :=
  match readResult with
  | Except.error _ => []
  | Except.ok data => (splitLines data).filter (fun word => !(jsTrim word == ""))

/-- Embeds `calculateLengthScore` (src/unnamed/part_001 lines 172–183):
0 below `minLength = 8`, 50 above `maxLength = 20`, linear interpolation
`((length - 8) / (20 - 8)) * 50` in between, with no additive offset. -/
def calculateLengthScore (password : String) : ℚ :=
  let minLength : ℕ := 8
  let maxLength : ℕ := 20
  let length := password.length
  if length < minLength then 0
  else if maxLength < length then 50
  else (((length : ℚ) - (minLength : ℚ)) / ((maxLength : ℚ) - (minLength : ℚ))) * 50

/-- The four character-class regexes of `calculateDiversityScore`
(src/unnamed/part_001 lines 193–198): `[a-z]`, `[A-Z]`, `\d`, `\W`. -/
def characterSets : List (Char → Bool) :=
  [Char.isLower, Char.isUpper, Char.isDigit, fun c => !(isWordChar c)]

/-- `re.test(s)` for a single-character class regex: does any character of
`s` belong to the class. -/
def regexTest (p : Char → Bool) (s : String) : Bool := s.data.any p

/-- Embeds `calculateDiversityScore` (src/unnamed/part_001 lines 191–206):
25 points per character class present, accumulated by `reduce` from 0.  This
revision applies no repetition or sequence penalty. -/
def calculateDiversityScore (password : String) : ℚ :=
  characterSets.foldl
    (fun score set => score + (if regexTest set password then 25 else 0)) 0

/-- The character class of the regex
`/[!@#$%^&*()_+\-=\[\]{}|;':",.<>\/?]+/` in `calculateSpecialCharactersScore`
(src/unnamed/part_001 line 216), listed character by character. -/
def specialCharacters : List Char :=
  ['!', '@', '#', '$', '%', '^', '&', '*', '(', ')', '_', '+', '-', '=',
   '[', ']', '{', '}', '|', ';', '\'', ':', '"', ',', '.', '<', '>', '/', '?']

/-- Embeds `calculateSpecialCharactersScore` (src/unnamed/part_001 lines
214–218): 25 if the password contains at least one character of the fixed
set above, else 0. -/
def calculateSpecialCharactersScore (password : String) : ℚ :=
  if regexTest (fun c => specialCharacters.contains c) password then 25 else 0

/-- Embeds `calculateDictionaryScore` (src/unnamed/part_001 lines 226–236):
lowercase the password, split it on `\W+`, keep the tokens found in the
dictionary (a JS `Set` membership test, embedded as `List.contains` on the
loaded word list), and score `Math.max(0, 50 - matchingWords.length * 10)`.
Note `filter` keeps duplicate tokens: the count is taken with multiplicity. -/
def calculateDictionaryScore (dictionary : List String) (password : String) : ℚ :=
  let lowercasePassword := jsToLower password
  let wordsInPassword := jsSplitNonWord lowercasePassword
  let matchingWords := wordsInPassword.filter (fun word => dictionary.contains word)
  max 0 (50 - (matchingWords.length : ℚ) * 10)

/-- The `details` object of a security report (src/unnamed/part_001 lines
157–162). -/
structure ScoreDetails where
  lengthScore : ℚ
  diversityScore : ℚ
  specialCharactersScore : ℚ
  dictionaryScore : ℚ

/-- The security report returned by `Test` (src/unnamed/part_001 lines
154–163). -/
structure ScoreReport where
  isSecure : Bool
  totalScore : ℚ
  details : ScoreDetails

/-- Embeds `Test` (src/unnamed/part_001 lines 143–164): computes the four
sub-scores, sums them without weights into `totalScore`, and reports
`isSecure = totalScore >= 75`.  The instance field `this.dictionary` is the
explicit first argument. -/
def Test (dictionary : List String) (password : String) : ScoreReport :=
  let lengthScore := calculateLengthScore password
  let diversityScore := calculateDiversityScore password
  let specialCharactersScore := calculateSpecialCharactersScore password
  let dictionaryScore := calculateDictionaryScore dictionary password
  let totalScore := lengthScore + diversityScore + specialCharactersScore + dictionaryScore
  ⟨decide (75 ≤ totalScore), totalScore,
    ⟨lengthScore, diversityScore, specialCharactersScore, dictionaryScore⟩⟩

/-- The instance state of a `CipherForge` object after construction: just the
loaded dictionary (src/unnamed/part_001 lines 113–118). -/
structure CipherForgeState where
  dictionary : List String

/-- The `Test` method in state-passing form: the method reads
`this.dictionary` and assigns nothing to `this`, so it returns the report
together with the unchanged instance state. -/
def TestM (s : CipherForgeState) (password : String) : ScoreReport × CipherForgeState :=
  (Test s.dictionary password, s)

/-- Modelled from the spec's words in claim C2, for comparison with the
source's `calculateDictionaryScore`: penalize 10 points per DISTINCT
case-folded token of the password that matches a dictionary entry,
`max(0, 50 - 10 * m)` with `m` the deduplicated match count. -/
def claimDictionaryScore (dictionary : List String) (password : String) : ℚ :=
  let distinctMatches :=
    ((jsSplitNonWord (jsToLower password)).filter
      (fun word => dictionary.contains word)).dedup
  max 0 (50 - (distinctMatches.length : ℚ) * 10)

end CipherForge

/-- A deterministic all-zero byte stream, used to instantiate theorems about
the generator at a concrete random source. -/
def zeroBytes : ℕ → Fin 256 := fun _ => 0

/-- Any nonempty alphabet yields, at every position of the byte stream, an
in-range random index, and the corresponding `jsCharAt` produces a
one-character string drawn from the alphabet. -/
theorem jsCharAt_randInt_mem (ρ : ℕ → Fin 256) (pos : ℕ) (a : String)
    (h : a.data ≠ []) :
    ∃ c ∈ a.data,
      CipherCraft.jsCharAt a (CipherCraft.RandInt ρ pos a.data.length) = String.mk [c] := by
  have hlen : a.data.length ≠ 0 := fun hh => h (List.length_eq_zero.mp hh)
  have hk : CipherCraft.bytesToNumber (CipherCraft.getRandomBytes ρ pos 4) % a.data.length
      < a.data.length :=
    Nat.mod_lt _ (Nat.pos_of_ne_zero hlen)
  refine ⟨a.data.get ⟨_, hk⟩, List.get_mem _ _ _, ?_⟩
  unfold CipherCraft.RandInt CipherCraft.jsCharAt
  simp only [hlen, if_false, if_neg hlen]
  rw [dif_pos hk]

/-- Each iteration of the `BasicPassword` loop appends exactly one character
of the (nonempty) alphabet, so the fold grows the accumulator by one
in-alphabet character per loop index. -/
theorem basicPassword_go (ρ : ℕ → Fin 256) (a : String) (h : a.data ≠ []) :
    ∀ (l : List ℕ) (init : String),
      ((l.foldl (fun password i =>
          password ++ CipherCraft.jsCharAt a
            (CipherCraft.RandInt ρ (4 * i) a.data.length)) init).data.length
        = init.data.length + l.length)
      ∧ ∀ c ∈ (l.foldl (fun password i =>
          password ++ CipherCraft.jsCharAt a
            (CipherCraft.RandInt ρ (4 * i) a.data.length)) init).data,
          c ∈ init.data ∨ c ∈ a.data := by
  intro l
  induction l with
  | nil => exact fun init => ⟨by simp, fun c hc => Or.inl hc⟩
  | cons i t ih =>
    intro init
    obtain ⟨ch, hch, heq⟩ := jsCharAt_randInt_mem ρ (4 * i) a h
    have hstep : (init ++ CipherCraft.jsCharAt a
        (CipherCraft.RandInt ρ (4 * i) a.data.length)).data = init.data ++ [ch] := by
      rw [heq]; cases init; rfl
    have hih := ih (init ++ CipherCraft.jsCharAt a
      (CipherCraft.RandInt ρ (4 * i) a.data.length))
    constructor
    · rw [List.foldl_cons, hih.1, hstep]
      simp; omega
    · intro c hc
      rw [List.foldl_cons] at hc
      rcases hih.2 c hc with h1 | h2
      · rw [hstep] at h1
        rcases List.mem_append.mp h1 with h3 | h3
        · exact Or.inl h3
        · simp at h3; subst h3; exact Or.inr hch
      · exact Or.inr h2

/-- Claim C1: for every password and word list, `Test` returns a report whose
`totalScore` is the raw unweighted sum of the four sub-scores in `details`,
and whose `isSecure` flag holds exactly when `totalScore >= 75`. -/
theorem c1_totalScore_additive_and_threshold (D : List String) (p : String) :
    (CipherForge.Test D p).totalScore =
      (CipherForge.Test D p).details.lengthScore +
      (CipherForge.Test D p).details.diversityScore +
      (CipherForge.Test D p).details.specialCharactersScore +
      (CipherForge.Test D p).details.dictionaryScore ∧
    ((CipherForge.Test D p).isSecure = true ↔ 75 ≤ (CipherForge.Test D p).totalScore) := by
  refine ⟨rfl, ?_⟩
  simp [CipherForge.Test]

/-- Claim C2, counterexample: the code counts matching tokens with
multiplicity, not distinct matches.  On the password "cat cat" with word
list \x7b"cat"\x7d the code scores 50 - 2*10 = 30, while the claimed
distinct-count formula gives 50 - 1*10 = 40. -/
theorem c2_distinct_count_counterexample :
    CipherForge.calculateDictionaryScore ["cat"] "cat cat" = 30 ∧
    CipherForge.claimDictionaryScore ["cat"] "cat cat" = 40 ∧
    CipherForge.calculateDictionaryScore ["cat"] "cat cat" ≠
      CipherForge.claimDictionaryScore ["cat"] "cat cat" := by
  have h30 : CipherForge.calculateDictionaryScore ["cat"] "cat cat" = 30 := by
    have hm : ((CipherForge.jsSplitNonWord (CipherForge.jsToLower "cat cat")).filter
        (fun word => (["cat"] : List String).contains word)).length = 2 := rfl
    simp only [CipherForge.calculateDictionaryScore]
    rw [hm]
    rw [max_eq_right (by norm_num : (0:ℚ) ≤ 50 - (2:ℕ) * 10)]
    norm_num
  have h40 : CipherForge.claimDictionaryScore ["cat"] "cat cat" = 40 := by
    have hm : ((CipherForge.jsSplitNonWord (CipherForge.jsToLower "cat cat")).filter
        (fun word => (["cat"] : List String).contains word)).dedup.length = 1 := rfl
    simp only [CipherForge.claimDictionaryScore]
    rw [hm]
    rw [max_eq_right (by norm_num : (0:ℚ) ≤ 50 - (1:ℕ) * 10)]
    norm_num
  refine ⟨h30, h40, ?_⟩
  rw [h30, h40]
  norm_num

/-- Claim C2 (amended): the dictionary sub-score of `Test` is
`max(0, 50 - 10 * m)` where `m` counts the case-folded tokens of the
password that match a dictionary entry WITH MULTIPLICITY (the source filters
the token list without deduplicating); a password with no matching token
scores 50, and one with 5 or more distinct matching tokens scores 0. -/
theorem c2_dictionaryScore_multiplicity (D : List String) (p : String) :
    ((CipherForge.Test D p).details.dictionaryScore =
      max 0 (50 - (((CipherForge.jsSplitNonWord (CipherForge.jsToLower p)).filter
        (fun word => D.contains word)).length : ℚ) * 10)) ∧
    ((CipherForge.jsSplitNonWord (CipherForge.jsToLower p)).filter
        (fun word => D.contains word) = [] →
      (CipherForge.Test D p).details.dictionaryScore = 50) ∧
    (5 ≤ ((CipherForge.jsSplitNonWord (CipherForge.jsToLower p)).filter
        (fun word => D.contains word)).dedup.length →
      (CipherForge.Test D p).details.dictionaryScore = 0) := by
  have h : (CipherForge.Test D p).details.dictionaryScore =
      CipherForge.calculateDictionaryScore D p := rfl
  have hb : CipherForge.calculateDictionaryScore D p =
      max 0 (50 - (((CipherForge.jsSplitNonWord (CipherForge.jsToLower p)).filter
        (fun word => D.contains word)).length : ℚ) * 10) := rfl
  refine ⟨h.trans hb, fun hnil => ?_, fun hfive => ?_⟩
  · rw [h, hb, hnil]
    rw [show ((([] : List String).length : ℚ)) * 10 = 0 by norm_num]
    rw [max_eq_right (by norm_num : (0:ℚ) ≤ 50 - 0)]
    norm_num
  · rw [h, hb]
    have hle : 5 ≤ ((CipherForge.jsSplitNonWord (CipherForge.jsToLower p)).filter
        (fun word => D.contains word)).length :=
      le_trans hfive (List.Sublist.length_le (List.dedup_sublist _))
    have hq : (5:ℚ) ≤ (((CipherForge.jsSplitNonWord (CipherForge.jsToLower p)).filter
        (fun word => D.contains word)).length : ℚ) := by exact_mod_cast hle
    rw [max_eq_left (by linarith : (50:ℚ) - _ * 10 ≤ 0)]

/-- Witness for claim C2 (amended) at concrete inputs: "dog" has no matching
token against \x7b"cat"\x7d and scores 50; "a b c d e" has five distinct
matching tokens against \x7b"a","b","c","d","e"\x7d and scores 0. -/
theorem c2_dictionaryScore_multiplicity_witness :
    (CipherForge.Test ["cat"] "dog").details.dictionaryScore =
      max 0 (50 - (((CipherForge.jsSplitNonWord (CipherForge.jsToLower "dog")).filter
        (fun word => (["cat"] : List String).contains word)).length : ℚ) * 10) ∧
    (CipherForge.Test ["cat"] "dog").details.dictionaryScore = 50 ∧
    (CipherForge.Test ["a", "b", "c", "d", "e"] "a b c d e").details.dictionaryScore = 0 :=
  ⟨(c2_dictionaryScore_multiplicity ["cat"] "dog").1,
   (c2_dictionaryScore_multiplicity ["cat"] "dog").2.1 (by decide),
   (c2_dictionaryScore_multiplicity ["a", "b", "c", "d", "e"] "a b c d e").2.2 (by decide)⟩

/-- Claim C3, counterexample: the space character lies outside `[A-Za-z0-9]`,
yet the password " " scores 0, not 25 — the source tests a fixed punctuation
set that omits space (and backtick and tilde). -/
theorem c3_space_scores_zero_counterexample :
    (" ".data.any (fun c => !(c.isAlphanum)) = true) ∧
    (CipherForge.Test [] " ").details.specialCharactersScore = 0 ∧
    (CipherForge.Test [] " ").details.specialCharactersScore ≠ 25 := by
  refine ⟨by decide, rfl, ?_⟩
  have h : (CipherForge.Test [] " ").details.specialCharactersScore = 0 := rfl
  rw [h]; norm_num

/-- Claim C3 (amended): the special-characters sub-score of `Test` is 25
exactly when the password contains at least one character of the fixed
29-character punctuation set of the source regex (not of the full complement
of `[A-Za-z0-9]`), and 0 otherwise; it is presence-only — it only takes the
values 0 and 25, and doubling the password (hence the count of special
characters) never changes it. -/
theorem c3_specialCharactersScore_fixed_set (D : List String) (p : String) :
    ((CipherForge.Test D p).details.specialCharactersScore =
      if p.data.any (fun c => CipherForge.specialCharacters.contains c) then 25 else 0) ∧
    ((CipherForge.Test D p).details.specialCharactersScore = 0 ∨
      (CipherForge.Test D p).details.specialCharactersScore = 25) ∧
    CipherForge.calculateSpecialCharactersScore (p ++ p) =
      CipherForge.calculateSpecialCharactersScore p := by
  have h : (CipherForge.Test D p).details.specialCharactersScore =
      CipherForge.calculateSpecialCharactersScore p := rfl
  have hd : (p ++ p).data = p.data ++ p.data := by cases p; rfl
  refine ⟨rfl, ?_, ?_⟩
  · rw [h]; unfold CipherForge.calculateSpecialCharactersScore
    split
    · right; rfl
    · left; rfl
  · unfold CipherForge.calculateSpecialCharactersScore CipherForge.regexTest
    rw [hd, List.any_append, Bool.or_self]

/-- Claim C4: the length sub-score of `Test` is 0 below 8 characters, 50
above 20 characters, and the offset-free linear interpolation
`((length - 8) / (20 - 8)) * 50` in between. -/
theorem c4_lengthScore_piecewise (D : List String) (p : String) :
    (p.length < 8 → (CipherForge.Test D p).details.lengthScore = 0) ∧
    (20 < p.length → (CipherForge.Test D p).details.lengthScore = 50) ∧
    (8 ≤ p.length → p.length ≤ 20 →
      (CipherForge.Test D p).details.lengthScore =
        (((p.length : ℚ) - 8) / (20 - 8)) * 50) := by
  have h : (CipherForge.Test D p).details.lengthScore =
      CipherForge.calculateLengthScore p := rfl
  refine ⟨fun h1 => ?_, fun h2 => ?_, fun h1 h2 => ?_⟩
  · rw [h]; simp [CipherForge.calculateLengthScore, h1]
  · rw [h]; have h3 : ¬ p.length < 8 := by omega
    simp [CipherForge.calculateLengthScore, h3, h2]
  · rw [h]; have h3 : ¬ p.length < 8 := by omega
    have h4 : ¬ 20 < p.length := by omega
    simp [CipherForge.calculateLengthScore, h3, h4]

/-- Witness for claim C4 at concrete inputs of lengths 3, 25 and 10. -/
theorem c4_lengthScore_piecewise_witness :
    (CipherForge.Test [] "abc").details.lengthScore = 0 ∧
    (CipherForge.Test [] "abcdefghijklmnopqrstuvwxy").details.lengthScore = 50 ∧
    (CipherForge.Test [] "abcdefghij").details.lengthScore =
      ((("abcdefghij".length : ℚ) - 8) / (20 - 8)) * 50 :=
  ⟨(c4_lengthScore_piecewise [] "abc").1 (by decide),
   (c4_lengthScore_piecewise [] "abcdefghijklmnopqrstuvwxy").2.1 (by decide),
   (c4_lengthScore_piecewise [] "abcdefghij").2.2 (by decide) (by decide)⟩

/-- Claim C5: the diversity sub-score of `Test` is the plain sum of 25 points
per character class present (lowercase, uppercase, digit, non-word), with no
repetition or sequence penalty, and never exceeds 100. -/
theorem c5_diversityScore_class_sum (D : List String) (p : String) :
    (CipherForge.Test D p).details.diversityScore =
      (if p.data.any Char.isLower then (25:ℚ) else 0) +
      (if p.data.any Char.isUpper then (25:ℚ) else 0) +
      (if p.data.any Char.isDigit then (25:ℚ) else 0) +
      (if p.data.any (fun c => !(CipherForge.isWordChar c)) then (25:ℚ) else 0) ∧
    (CipherForge.Test D p).details.diversityScore ≤ 100 := by
  have h : (CipherForge.Test D p).details.diversityScore =
      CipherForge.calculateDiversityScore p := rfl
  constructor
  · rw [h]
    simp [CipherForge.calculateDiversityScore, CipherForge.characterSets,
      CipherForge.regexTest]
  · rw [h]
    simp only [CipherForge.calculateDiversityScore, CipherForge.characterSets,
      CipherForge.regexTest, List.foldl]
    split_ifs <;> norm_num

/-- Claim C6: for every byte stream, every alphabet and every requested
length `n ≥ 0` with the alphabet nonempty whenever `n > 0`, `BasicPassword`
returns a string of exactly `n` characters, each a member of the alphabet;
in particular the requested length 0 yields the empty string. -/
theorem c6_basicPassword_length_invariant (ρ : ℕ → Fin 256) (a : String) (n : ℤ)
    (hn : 0 ≤ n) (ha : 0 < n → a ≠ "") :
    (((CipherCraft.BasicPassword ρ a n).data.length : ℤ) = n) ∧
    (∀ c ∈ (CipherCraft.BasicPassword ρ a n).data, c ∈ a.data) ∧
    (n = 0 → CipherCraft.BasicPassword ρ a n = "") := by
  by_cases h0 : n = 0
  · subst h0
    exact ⟨rfl, fun c hc => absurd hc (by simp [CipherCraft.BasicPassword]),
      fun _ => rfl⟩
  · have hpos : 0 < n := lt_of_le_of_ne hn (Ne.symm h0)
    have hne : a.data ≠ [] := by
      intro hd
      apply ha hpos
      cases a with | mk d =>
        simp only [String.data] at hd
        subst hd
        rfl
    have hgo := basicPassword_go ρ a hne (List.range n.toNat) ""
    refine ⟨?_, ?_, fun h' => absurd h' h0⟩
    · show ((((List.range n.toNat).foldl (fun password i =>
        password ++ CipherCraft.jsCharAt a
          (CipherCraft.RandInt ρ (4 * i) a.data.length)) "").data.length : ℤ)) = n
      rw [hgo.1]
      simp [Int.toNat_of_nonneg hn]
    · intro c hc
      rcases hgo.2 c hc with h1 | h2
      · exact absurd h1 (by simp)
      · exact h2

/-- Witness for claim C6: with the all-zero byte stream, alphabet "ab" and
length 2 the generator returns two characters of "ab"; length 0 returns the
empty string. -/
theorem c6_basicPassword_length_invariant_witness :
    ((((CipherCraft.BasicPassword zeroBytes "ab" 2).data.length : ℤ) = 2) ∧
      (∀ c ∈ (CipherCraft.BasicPassword zeroBytes "ab" 2).data, c ∈ "ab".data)) ∧
    CipherCraft.BasicPassword zeroBytes "ab" 0 = "" :=
  ⟨⟨(c6_basicPassword_length_invariant zeroBytes "ab" 2 (by decide) (by decide)).1,
    (c6_basicPassword_length_invariant zeroBytes "ab" 2 (by decide) (by decide)).2.1⟩,
   (c6_basicPassword_length_invariant zeroBytes "ab" 0 (by decide) (by decide)).2.2 rfl⟩

/-- Claim C7: `BasicPassword` performs no argument validation and never
raises.  With an empty alphabet and length 5 every random index is `NaN`
(`value % 0`), `charset[NaN]` is `undefined`, and `+=` stringifies it, so
the call returns the 45-character string "undefined" repeated five times
instead of failing; a negative length silently returns the empty string. -/
theorem c7_basicPassword_no_validation (ρ : ℕ → Fin 256) :
    CipherCraft.BasicPassword ρ "" 5 =
      "undefinedundefinedundefinedundefinedundefined" ∧
    (∀ a : String, CipherCraft.BasicPassword ρ a (-3) = "") :=
  ⟨rfl, fun _ => rfl⟩

/-- Claim C8: `CustomPassword` and `Key` both delegate to
`this.generatePassword`, a method defined nowhere on `CipherCraft`, so every
call raises a `TypeError` and never returns a generated string. -/
theorem c8_generatePassword_undefined (opts : CipherCraft.PasswordOptions) (len : ℤ) :
    CipherCraft.CustomPassword opts =
      Except.error CipherCraft.typeErrorGeneratePassword ∧
    (∀ s, CipherCraft.CustomPassword opts ≠ Except.ok s) ∧
    CipherCraft.Key len = Except.error CipherCraft.typeErrorGeneratePassword ∧
    (∀ s, CipherCraft.Key len ≠ Except.ok s) := by
  refine ⟨rfl, fun s hs => ?_, rfl, fun s hs => ?_⟩
  · rw [show CipherCraft.CustomPassword opts =
      Except.error CipherCraft.typeErrorGeneratePassword from rfl] at hs
    exact Except.noConfusion hs
  · rw [show CipherCraft.Key len =
      Except.error CipherCraft.typeErrorGeneratePassword from rfl] at hs
    exact Except.noConfusion hs

/-- Claim C9: a dictionary read failure is absorbed by `loadDictionary`,
which returns the empty word list instead of propagating the error, and
against the empty word list the dictionary sub-score of `Test` is its
maximum 50 for every password. -/
theorem c9_load_failure_degrades_to_empty (msg : String) (p : String) :
    CipherForge.loadDictionary (Except.error msg) = [] ∧
    ((CipherForge.Test (CipherForge.loadDictionary (Except.error msg)) p).details).dictionaryScore = 50 := by
  refine ⟨rfl, ?_⟩
  have h : ((CipherForge.Test (CipherForge.loadDictionary (Except.error msg)) p).details).dictionaryScore
      = CipherForge.calculateDictionaryScore [] p := rfl
  rw [h]
  have hf : (CipherForge.jsSplitNonWord (CipherForge.jsToLower p)).filter
      (fun word => ([] : List String).contains word) = [] :=
    List.filter_eq_nil_iff.mpr (fun a _ => by simp)
  simp only [CipherForge.calculateDictionaryScore]
  rw [hf]
  rw [show ((([] : List String).length : ℚ)) * 10 = 0 by norm_num]
  rw [max_eq_right (by norm_num : (0:ℚ) ≤ 50 - 0)]
  norm_num

/-- Claim C10: `Test` is a deterministic pure function of the password and
the word list.  In state-passing form the method leaves the instance state
unchanged, a second call on the resulting state returns an identical report,
and any two instances holding the same word list report identically. -/
theorem c10_test_pure_idempotent (s₁ s₂ : CipherForge.CipherForgeState) (p : String)
    (h : s₁.dictionary = s₂.dictionary) :
    (CipherForge.TestM s₁ p).2 = s₁ ∧
    (CipherForge.TestM ((CipherForge.TestM s₁ p).2) p).1 = (CipherForge.TestM s₁ p).1 ∧
    (CipherForge.TestM s₁ p).1 = (CipherForge.TestM s₂ p).1 := by
  refine ⟨rfl, rfl, ?_⟩
  simp [CipherForge.TestM, h]

/-- Witness for claim C10 at a concrete instance state and password. -/
theorem c10_test_pure_idempotent_witness :
    (CipherForge.TestM ⟨["cat"]⟩ "x").2 = (⟨["cat"]⟩ : CipherForge.CipherForgeState) ∧
    (CipherForge.TestM ((CipherForge.TestM ⟨["cat"]⟩ "x").2) "x").1 =
      (CipherForge.TestM ⟨["cat"]⟩ "x").1 ∧
    (CipherForge.TestM ⟨["cat"]⟩ "x").1 = (CipherForge.TestM ⟨["cat"]⟩ "x").1 :=
  c10_test_pure_idempotent ⟨["cat"]⟩ ⟨["cat"]⟩ "x" rfl
